import Mathlib

/-!
Shallow embedding of `src/misty.ts` (class `Misty2Robot`) from the
misty2-js repository.

Numbers held in JavaScript variables are modelled as rationals (`ℚ`);
the constants of the program (`0.02`, `0.1`, thresholds, scaling bounds)
are all exactly representable.  `Math.floor` is `Int.floor`, `Math.trunc`
truncates toward zero, `Math.min`/`Math.max` are `min`/`max`.

Effects are made explicit: a method that calls `fetch` is modelled as a
pure function that also returns the request it issues (commands as
`HeadCommand` / `DriveCommand` values, API calls as `ApiRequest` values),
and the mutable fields of the class are threaded as a `Misty2State`.
-/

namespace Misty2

/-- The gamepad object consumed by `update`: only `axes[0] .. axes[3]`
are read (src/misty.ts lines 142-151). -/
structure Gamepad where
  axes0 : ℚ
  axes1 : ℚ
  axes2 : ℚ
  axes3 : ℚ
deriving DecidableEq

/-- A WebSocket handle, identified by the URL it was opened on
(src/misty.ts line 56). -/
structure Socket where
  url : String
deriving DecidableEq

/-- The mutable fields of class `Misty2Robot` (src/misty.ts lines 5-14).
`headRotation` is split into its two components. -/
structure Misty2State where
  ipAddress : String
  headRotation0 : ℚ
  headRotation1 : ℚ
  framesToMoveHead : Nat
  framesToMoveBody : Nat
  sensitivity : ℚ
  deadzone : ℚ
  imageWidth : ℤ
  imageHeight : ℤ
  videoQuality : ℤ
  ws : Option Socket
deriving DecidableEq

/-- The constructor (src/misty.ts lines 20-36): zeroed head rotation and
frame counters, sensitivity 0.02, deadzone 0.1, no socket. -/
def mkMisty2Robot (ipAddress : String) (videoQuality imageWidth imageHeight : ℤ) :
    Misty2State :=
  { ipAddress := ipAddress
    headRotation0 := 0
    headRotation1 := 0
    framesToMoveHead := 0
    framesToMoveBody := 0
    sensitivity := 1/50
    deadzone := 1/10
    imageWidth := imageWidth
    imageHeight := imageHeight
    videoQuality := videoQuality
    ws := none }

/-- The body of the POST to `/api/head` (src/misty.ts lines 76-83). -/
structure HeadCommand where
  pitch : ℤ
  yaw : ℤ
  velocity : ℤ
deriving DecidableEq

/-- The body of the POST to `/api/drive` (src/misty.ts lines 95-101). -/
structure DriveCommand where
  linearVelocity : ℤ
  angularVelocity : ℤ
deriving DecidableEq

/-- The remaining HTTP requests the class issues: session start
(src/misty.ts lines 44-53), session stop (lines 58-60) and reboot
(lines 111-117). -/
inductive ApiRequest where
  | videoStreamingStart (port rotation width height quality : ℤ)
  | videoStreamingStop
  | reboot (core sensoryServices : Bool)
deriving DecidableEq

/-- A transport response; only its status code is ever inspected
(src/misty.ts line 55). -/
structure Response where
  status : ℤ
deriving DecidableEq

/-- The failure thrown by `getVideoStream` on a non-200 status
(src/misty.ts line 65). -/
inductive StreamStartError where
  | failedToStart
deriving DecidableEq

/-- Why a socket close event fired; the close handler receives the event
but never inspects it (src/misty.ts lines 57-62). -/
inductive CloseCause where
  | remoteClose
  | networkFailure
  | clientClose
deriving DecidableEq

/-- A socket close event. -/
structure CloseEvent where
  cause : CloseCause
deriving DecidableEq

/-- The per-axis deadzone filter, inlined four times in
`readAnalogSticks` (src/misty.ts lines 143-150):
`if (v < deadzone && v > -deadzone) v = 0`. -/
def applyDeadzone (value deadzone : ℚ) : ℚ :=
  if value < deadzone ∧ value > -deadzone then 0 else value

/-- `readAnalogSticks` (src/misty.ts lines 142-152): deadzone-filters
each of the four axes and returns
`[leftStickX, leftStickY, rightStickX, rightStickY]`. -/
def readAnalogSticks (g : Gamepad) (deadzone : ℚ) : ℚ × ℚ × ℚ × ℚ :=
  (applyDeadzone g.axes0 deadzone,
   applyDeadzone g.axes1 deadzone,
   applyDeadzone g.axes2 deadzone,
   applyDeadzone g.axes3 deadzone)

/-- `mapAnalogValues` (src/misty.ts lines 160-168): linear map from
[-1, 1] to [-100, 100] followed by `Math.floor`, applied to each of the
two arguments. -/
def mapAnalogValues (x y : ℚ) : ℤ × ℤ :=
  let minX : ℚ := -1
  let maxX : ℚ := 1
  let minY : ℚ := -100
  let maxY : ℚ := 100
  (⌊(x - minX) / (maxX - minX) * (maxY - minY) + minY⌋,
   ⌊(y - minX) / (maxX - minX) * (maxY - minY) + minY⌋)

/-- `clamp` (src/misty.ts lines 177-179):
`Math.max(min, Math.min(value, max))`. -/
def clamp (value mn mx : ℚ) : ℚ :=
  max mn (min value mx)

/-- `Math.trunc`: rounds toward zero. -/
def jsTrunc (q : ℚ) : ℤ :=
  if 0 ≤ q then ⌊q⌋ else -⌊-q⌋

/-- `moveHead` (src/misty.ts lines 74-86): pre-increments the head frame
counter; when it reaches 180, POSTs a `HeadCommand` with velocity 100 and
resets the counter to 0. -/
def moveHead (s : Misty2State) (pitch yaw : ℤ) :
    Misty2State × Option HeadCommand :=
  if s.framesToMoveHead + 1 = 180 then
    ({ s with framesToMoveHead := 0 },
     some { pitch := pitch, yaw := yaw, velocity := 100 })
  else
    ({ s with framesToMoveHead := s.framesToMoveHead + 1 }, none)

/-- `move` (src/misty.ts lines 93-104): pre-increments the body frame
counter; when it reaches 180, POSTs a `DriveCommand` and resets the
counter to 0. -/
def move (s : Misty2State) (linearVelocity angularVelocity : ℤ) :
    Misty2State × Option DriveCommand :=
  if s.framesToMoveBody + 1 = 180 then
    ({ s with framesToMoveBody := 0 },
     some { linearVelocity := linearVelocity, angularVelocity := angularVelocity })
  else
    ({ s with framesToMoveBody := s.framesToMoveBody + 1 }, none)

/-- `update` (src/misty.ts lines 124-134): deadzone-filters the axes,
scales the right stick into a head delta, accumulates it into
`headRotation` (scaled by `sensitivity`) with clamping to [-100, 100],
scales the left stick into drive values, then runs the two throttled
emitters.  Returns the new state and the commands emitted this frame. -/
def update (s : Misty2State) (g : Gamepad) :
    Misty2State × Option HeadCommand × Option DriveCommand :=
  let stickValues := readAnalogSticks g s.deadzone
  let headValues := mapAnalogValues stickValues.2.2.1 stickValues.2.2.2
  let hr0 := clamp (s.headRotation0 + (headValues.1 : ℚ) * s.sensitivity) (-100) 100
  let hr1 := clamp (s.headRotation1 + (headValues.2 : ℚ) * s.sensitivity) (-100) 100
  let driveValues := mapAnalogValues stickValues.1 stickValues.2.1
  let s1 := { s with headRotation0 := hr0, headRotation1 := hr1 }
  let mh := moveHead s1 (jsTrunc hr1) (-(jsTrunc hr0))
  let mv := move mh.1 driveValues.2 driveValues.1
  (mv.1, mh.2, mv.2)

/-- Runs `update` over a finite sequence of gamepad samples, collecting
the emitted head and drive commands in order. -/
def runUpdates (s : Misty2State) :
    List Gamepad → Misty2State × List HeadCommand × List DriveCommand
  | [] => (s, [], [])
  | g :: gs =>
    let r := update s g
    let rest := runUpdates r.1 gs
    (rest.1, r.2.1.toList ++ rest.2.1, r.2.2.toList ++ rest.2.2)

/-- The WebSocket URL opened on a successful stream start
(src/misty.ts line 56). -/
def wsUrl (ip : String) (port : Nat) : String :=
  "ws://" ++ ip ++ ":" ++ toString port

/-- The `onclose` handler installed on the stream socket (src/misty.ts
lines 57-62): for any close event it fires one stop POST; it never
inspects the event or the outcome of that POST. -/
def wsOnClose (_evt : CloseEvent) : List ApiRequest :=
  [ApiRequest.videoStreamingStop]

/-- `getVideoStream` (src/misty.ts lines 43-67): POSTs the session-start
request; on status 200 opens a socket on port 5678, installs the
`onclose` handler, stores the socket in `ws` and returns it; otherwise
throws and leaves the state untouched.  Result: the request issued, the
state after the call, and either the socket with its installed close
handler or the error. -/
def getVideoStream (s : Misty2State) (resp : Response) :
    ApiRequest × Misty2State ×
      Except StreamStartError (Socket × (CloseEvent → List ApiRequest)) :=
  let req : ApiRequest :=
    ApiRequest.videoStreamingStart 5678 90 s.imageWidth s.imageHeight s.videoQuality
  if resp.status = 200 then
    let sock : Socket := { url := wsUrl s.ipAddress 5678 }
    (req, { s with ws := some sock }, Except.ok (sock, wsOnClose))
  else
    (req, s, Except.error StreamStartError.failedToStart)

/-- `restart` (src/misty.ts lines 110-118): POSTs one reboot request with
`Core: false, SensoryServices: true`; the transport response is bound but
never inspected. -/
def restart (_s : Misty2State) (_resp : Response) : List ApiRequest :=
  [ApiRequest.reboot false true]

/-- A concrete robot state, used to instantiate the theorems below. -/
def sampleState : Misty2State := mkMisty2Robot "192.168.1.10" 100 400 540

/-- A concrete gamepad sample with all sticks pushed fully. -/
def fullGamepad : Gamepad := { axes0 := 1, axes1 := 1, axes2 := 1, axes3 := 1 }

/-- A concrete gamepad sample with all sticks centred. -/
def zeroGamepad : Gamepad := { axes0 := 0, axes1 := 0, axes2 := 0, axes3 := 0 }

/-- A concrete gamepad sample with all sticks strictly inside the default
deadzone. -/
def idleGamepad : Gamepad :=
  { axes0 := 1/20, axes1 := 1/20, axes2 := 1/20, axes3 := 1/20 }

/-- `sampleState` one frame before a head emission. -/
def sampleHead179 : Misty2State := { sampleState with framesToMoveHead := 179 }

/-- `sampleState` one frame before a body emission. -/
def sampleBody179 : Misty2State := { sampleState with framesToMoveBody := 179 }

/-! ## Helper lemmas -/

/-- The scaling formula collapses to `⌊100 * v⌋` on each component. -/
lemma mapAnalogValues_eq_floor (x y : ℚ) :
    mapAnalogValues x y = (⌊100 * x⌋, ⌊100 * y⌋) := by
  simp only [mapAnalogValues, Prod.mk.injEq]
  constructor <;> · congr 1; ring

/-- Bounds for the scaled value on the nominal domain. -/
lemma floor_scale_bounds {v : ℚ} (h1 : -1 ≤ v) (h2 : v ≤ 1) :
    -100 ≤ ⌊100 * v⌋ ∧ ⌊100 * v⌋ ≤ 100 := by
  constructor
  · rw [Int.le_floor]
    push_cast
    linarith
  · have h : ⌊(100 : ℚ) * v⌋ ≤ ⌊(100 : ℚ)⌋ := Int.floor_mono (by linarith)
    simpa using h

/-- The clamp always lands in the requested interval (when it is
nonempty). -/
lemma clamp_bounds (v : ℚ) : -100 ≤ clamp v (-100) 100 ∧ clamp v (-100) 100 ≤ 100 := by
  unfold clamp
  constructor
  · exact le_max_left _ _
  · exact max_le (by norm_num) (min_le_right _ _)

/-- The clamp is the identity on values already inside the interval. -/
lemma clamp_eq_self {v : ℚ} (h1 : -100 ≤ v) (h2 : v ≤ 100) :
    clamp v (-100) 100 = v := by
  unfold clamp
  rw [min_eq_left h2, max_eq_right h1]

lemma moveHead_fst_headRotation0 (s : Misty2State) (p y : ℤ) :
    (moveHead s p y).1.headRotation0 = s.headRotation0 := by
  unfold moveHead; split <;> rfl

lemma moveHead_fst_headRotation1 (s : Misty2State) (p y : ℤ) :
    (moveHead s p y).1.headRotation1 = s.headRotation1 := by
  unfold moveHead; split <;> rfl

lemma moveHead_fst_framesToMoveBody (s : Misty2State) (p y : ℤ) :
    (moveHead s p y).1.framesToMoveBody = s.framesToMoveBody := by
  unfold moveHead; split <;> rfl

lemma moveHead_fst_framesToMoveHead (s : Misty2State) (p y : ℤ) :
    (moveHead s p y).1.framesToMoveHead =
      if s.framesToMoveHead + 1 = 180 then 0 else s.framesToMoveHead + 1 := by
  unfold moveHead; split <;> rfl

lemma moveHead_snd (s : Misty2State) (p y : ℤ) :
    (moveHead s p y).2 =
      if s.framesToMoveHead + 1 = 180 then
        some { pitch := p, yaw := y, velocity := 100 } else none := by
  unfold moveHead; split <;> rfl

lemma move_fst_headRotation0 (s : Misty2State) (l a : ℤ) :
    (move s l a).1.headRotation0 = s.headRotation0 := by
  unfold move; split <;> rfl

lemma move_fst_headRotation1 (s : Misty2State) (l a : ℤ) :
    (move s l a).1.headRotation1 = s.headRotation1 := by
  unfold move; split <;> rfl

lemma move_fst_framesToMoveHead (s : Misty2State) (l a : ℤ) :
    (move s l a).1.framesToMoveHead = s.framesToMoveHead := by
  unfold move; split <;> rfl

lemma move_fst_framesToMoveBody (s : Misty2State) (l a : ℤ) :
    (move s l a).1.framesToMoveBody =
      if s.framesToMoveBody + 1 = 180 then 0 else s.framesToMoveBody + 1 := by
  unfold move; split <;> rfl

lemma move_snd (s : Misty2State) (l a : ℤ) :
    (move s l a).2 =
      if s.framesToMoveBody + 1 = 180 then
        some { linearVelocity := l, angularVelocity := a } else none := by
  unfold move; split <;> rfl

/-- The head delta scaled into command range from the right stick. -/
lemma update_fst_headRotation0 (s : Misty2State) (g : Gamepad) :
    (update s g).1.headRotation0 =
      clamp (s.headRotation0 +
        ((mapAnalogValues (applyDeadzone g.axes2 s.deadzone)
            (applyDeadzone g.axes3 s.deadzone)).1 : ℚ) * s.sensitivity) (-100) 100 := by
  simp only [update, readAnalogSticks, move_fst_headRotation0, moveHead_fst_headRotation0]

lemma update_fst_headRotation1 (s : Misty2State) (g : Gamepad) :
    (update s g).1.headRotation1 =
      clamp (s.headRotation1 +
        ((mapAnalogValues (applyDeadzone g.axes2 s.deadzone)
            (applyDeadzone g.axes3 s.deadzone)).2 : ℚ) * s.sensitivity) (-100) 100 := by
  simp only [update, readAnalogSticks, move_fst_headRotation1, moveHead_fst_headRotation1]

lemma update_fst_framesToMoveHead (s : Misty2State) (g : Gamepad) :
    (update s g).1.framesToMoveHead =
      if s.framesToMoveHead + 1 = 180 then 0 else s.framesToMoveHead + 1 := by
  simp only [update, readAnalogSticks, move_fst_framesToMoveHead,
    moveHead_fst_framesToMoveHead]

lemma update_fst_framesToMoveBody (s : Misty2State) (g : Gamepad) :
    (update s g).1.framesToMoveBody =
      if s.framesToMoveBody + 1 = 180 then 0 else s.framesToMoveBody + 1 := by
  simp only [update, readAnalogSticks, move_fst_framesToMoveBody,
    moveHead_fst_framesToMoveBody]

lemma update_headCmd (s : Misty2State) (g : Gamepad) :
    (update s g).2.1 =
      if s.framesToMoveHead + 1 = 180 then
        some { pitch := jsTrunc ((update s g).1.headRotation1),
               yaw := -(jsTrunc ((update s g).1.headRotation0)),
               velocity := 100 }
      else none := by
  rw [update_fst_headRotation0, update_fst_headRotation1]
  simp only [update, readAnalogSticks, moveHead_snd]

lemma update_driveCmd (s : Misty2State) (g : Gamepad) :
    (update s g).2.2 =
      if s.framesToMoveBody + 1 = 180 then
        some { linearVelocity :=
                 (mapAnalogValues (applyDeadzone g.axes0 s.deadzone)
                   (applyDeadzone g.axes1 s.deadzone)).2,
               angularVelocity :=
                 (mapAnalogValues (applyDeadzone g.axes0 s.deadzone)
                   (applyDeadzone g.axes1 s.deadzone)).1 }
      else none := by
  simp only [update, readAnalogSticks, move_snd, moveHead_fst_framesToMoveBody]

/-- Generalized throttling invariant: starting from any state whose
counters are strictly below the threshold, the number of commands emitted
by each channel over a run and the final counter values depend only on
the initial counter and the number of frames, never on the inputs. -/
lemma runUpdates_counts (gs : List Gamepad) :
    ∀ s : Misty2State, s.framesToMoveHead < 180 → s.framesToMoveBody < 180 →
      (runUpdates s gs).2.1.length = (s.framesToMoveHead + gs.length) / 180 ∧
      (runUpdates s gs).2.2.length = (s.framesToMoveBody + gs.length) / 180 ∧
      (runUpdates s gs).1.framesToMoveHead = (s.framesToMoveHead + gs.length) % 180 ∧
      (runUpdates s gs).1.framesToMoveBody = (s.framesToMoveBody + gs.length) % 180 := by
  induction gs with
  | nil =>
    intro s h1 h2
    simp only [runUpdates, List.length_nil, Nat.add_zero]
    exact ⟨by rw [Nat.div_eq_of_lt h1], by rw [Nat.div_eq_of_lt h2],
      by rw [Nat.mod_eq_of_lt h1], by rw [Nat.mod_eq_of_lt h2]⟩
  | cons g gs ih =>
    intro s h1 h2
    have hH := update_fst_framesToMoveHead s g
    have hB := update_fst_framesToMoveBody s g
    have h1n : (update s g).1.framesToMoveHead < 180 := by rw [hH]; split <;> omega
    have h2n : (update s g).1.framesToMoveBody < 180 := by rw [hB]; split <;> omega
    obtain ⟨e1, e2, e3, e4⟩ := ih (update s g).1 h1n h2n
    have hHC := update_headCmd s g
    have hDC := update_driveCmd s g
    simp only [runUpdates, List.length_append, List.length_cons, e1, e2, e3, e4]
    by_cases hh : s.framesToMoveHead + 1 = 180 <;>
      by_cases hb : s.framesToMoveBody + 1 = 180 <;>
        simp only [hHC, hDC, hH, hB, if_pos, if_neg, hh, hb, if_true, if_false,
          Option.toList_some, Option.toList_none, List.length_cons, List.length_nil,
          ite_true, ite_false] <;>
          refine ⟨by omega, by omega, by omega, by omega⟩

/-- C1: from a fresh `Misty2Robot`, each channel emits exactly one
command per 180 consecutive `update` calls, for any inputs: the number
of emitted commands after `n` calls is `n / 180` for both channels, and
each counter sits at `n % 180` (so it is zeroed exactly at each
emission), the two counters evolving independently of each other. -/
theorem emission_every_180_frames (ip : String) (a b c : ℤ) (gs : List Gamepad) :
    (runUpdates (mkMisty2Robot ip a b c) gs).2.1.length = gs.length / 180 ∧
    (runUpdates (mkMisty2Robot ip a b c) gs).2.2.length = gs.length / 180 ∧
    (runUpdates (mkMisty2Robot ip a b c) gs).1.framesToMoveHead = gs.length % 180 ∧
    (runUpdates (mkMisty2Robot ip a b c) gs).1.framesToMoveBody = gs.length % 180 := by
  have h := runUpdates_counts gs (mkMisty2Robot ip a b c)
    (by simp [mkMisty2Robot]) (by simp [mkMisty2Robot])
  simpa [mkMisty2Robot] using h

/-- C2: every `update` call sets each `headRotation` component to the old
value plus the scaled head delta times the sensitivity, clamped to
[-100, 100]; consequently both components lie in [-100, 100] after every
call, whatever the raw inputs. -/
theorem head_rotation_accumulate_and_clamp (s : Misty2State) (g : Gamepad) :
    (update s g).1.headRotation0 =
      clamp (s.headRotation0 +
        ((mapAnalogValues (applyDeadzone g.axes2 s.deadzone)
            (applyDeadzone g.axes3 s.deadzone)).1 : ℚ) * s.sensitivity) (-100) 100 ∧
    (update s g).1.headRotation1 =
      clamp (s.headRotation1 +
        ((mapAnalogValues (applyDeadzone g.axes2 s.deadzone)
            (applyDeadzone g.axes3 s.deadzone)).2 : ℚ) * s.sensitivity) (-100) 100 ∧
    -100 ≤ (update s g).1.headRotation0 ∧ (update s g).1.headRotation0 ≤ 100 ∧
    -100 ≤ (update s g).1.headRotation1 ∧ (update s g).1.headRotation1 ≤ 100 := by
  refine ⟨update_fst_headRotation0 s g, update_fst_headRotation1 s g, ?_, ?_, ?_, ?_⟩
  · rw [update_fst_headRotation0]; exact (clamp_bounds _).1
  · rw [update_fst_headRotation0]; exact (clamp_bounds _).2
  · rw [update_fst_headRotation1]; exact (clamp_bounds _).1
  · rw [update_fst_headRotation1]; exact (clamp_bounds _).2

/-- C3: the deadzone filter returns 0 exactly on the open interval
`(-d, d)` and passes every other value (including the boundaries `d` and
`-d`) through unchanged, and `readAnalogSticks` applies it to each of the
four axes independently. -/
theorem applyDeadzone_spec (v d : ℚ) (g : Gamepad) :
    (-d < v → v < d → applyDeadzone v d = 0) ∧
    (v = d → applyDeadzone v d = v) ∧
    (v = -d → applyDeadzone v d = v) ∧
    (¬(-d < v ∧ v < d) → applyDeadzone v d = v) ∧
    readAnalogSticks g d =
      (applyDeadzone g.axes0 d, applyDeadzone g.axes1 d,
       applyDeadzone g.axes2 d, applyDeadzone g.axes3 d) := by
  refine ⟨?_, ?_, ?_, ?_, rfl⟩
  · intro h1 h2
    unfold applyDeadzone
    rw [if_pos ⟨h2, h1⟩]
  · intro h
    subst h
    unfold applyDeadzone
    rw [if_neg]
    rintro ⟨hlt, -⟩
    exact lt_irrefl v hlt
  · intro h
    subst h
    unfold applyDeadzone
    rw [if_neg]
    rintro ⟨-, hgt⟩
    exact lt_irrefl _ hgt
  · intro h
    unfold applyDeadzone
    rw [if_neg]
    rintro ⟨h1, h2⟩
    exact h ⟨h2, h1⟩

/-- Concrete instances of the deadzone filter behaviour. -/
theorem applyDeadzone_spec_witness :
    ((-(1/10) : ℚ) < 1/20 ∧ (1/20 : ℚ) < 1/10 ∧ applyDeadzone (1/20) (1/10) = 0) ∧
    applyDeadzone (1/10) (1/10) = 1/10 ∧
    applyDeadzone (-(1/10)) (1/10) = -(1/10) ∧
    (¬(-(1/10) < (3/10 : ℚ) ∧ (3/10 : ℚ) < 1/10) ∧
      applyDeadzone (3/10) (1/10) = 3/10) := by
  refine ⟨⟨by norm_num, by norm_num, ?_⟩, ?_, ?_, ⟨by norm_num, ?_⟩⟩
  · exact (applyDeadzone_spec (1/20) (1/10) zeroGamepad).1 (by norm_num) (by norm_num)
  · exact (applyDeadzone_spec (1/10) (1/10) zeroGamepad).2.1 rfl
  · exact (applyDeadzone_spec (-(1/10)) (1/10) zeroGamepad).2.2.1 rfl
  · exact (applyDeadzone_spec (3/10) (1/10) zeroGamepad).2.2.2.1 (by norm_num)

/-- C4: the scaling function computes exactly the documented floor
formula on each component, maps the domain endpoints to the range
endpoints, and sends every input in [-1, 1] to an integer in
[-100, 100]. -/
theorem mapAnalogValues_spec (x y : ℚ) :
    mapAnalogValues x y =
      (⌊(x - (-1)) / (1 - (-1)) * (100 - (-100)) + (-100)⌋,
       ⌊(y - (-1)) / (1 - (-1)) * (100 - (-100)) + (-100)⌋) ∧
    mapAnalogValues (-1) (-1) = (-100, -100) ∧
    mapAnalogValues 1 1 = (100, 100) ∧
    (-1 ≤ x → x ≤ 1 →
      -100 ≤ (mapAnalogValues x y).1 ∧ (mapAnalogValues x y).1 ≤ 100) ∧
    (-1 ≤ y → y ≤ 1 →
      -100 ≤ (mapAnalogValues x y).2 ∧ (mapAnalogValues x y).2 ≤ 100) := by
  refine ⟨rfl, ?_, ?_, ?_, ?_⟩
  · rw [mapAnalogValues_eq_floor]
    norm_num [Prod.ext_iff]
  · rw [mapAnalogValues_eq_floor]
    norm_num [Prod.ext_iff]
  · intro h1 h2
    rw [mapAnalogValues_eq_floor]
    exact floor_scale_bounds h1 h2
  · intro h1 h2
    rw [mapAnalogValues_eq_floor]
    exact floor_scale_bounds h1 h2

/-- Concrete instance of the scaling bounds at an interior point. -/
theorem mapAnalogValues_spec_witness :
    ((-1 : ℚ) ≤ 1/2 ∧ (1/2 : ℚ) ≤ 1 ∧
      -100 ≤ (mapAnalogValues (1/2) (1/2)).1 ∧ (mapAnalogValues (1/2) (1/2)).1 ≤ 100) ∧
    ((-1 : ℚ) ≤ -(1/3) ∧ (-(1/3) : ℚ) ≤ 1 ∧
      -100 ≤ (mapAnalogValues (1/2) (-(1/3))).2 ∧
      (mapAnalogValues (1/2) (-(1/3))).2 ≤ 100) := by
  refine ⟨⟨by norm_num, by norm_num, ?_⟩, ⟨by norm_num, by norm_num, ?_⟩⟩
  · exact (mapAnalogValues_spec (1/2) (1/2)).2.2.2.1 (by norm_num) (by norm_num)
  · exact (mapAnalogValues_spec (1/2) (-(1/3))).2.2.2.2 (by norm_num) (by norm_num)

/-- C5: when the head channel fires (its counter reaches 180), the
emitted command carries pitch `trunc(headRotation[1])`, yaw
`-trunc(headRotation[0])` and velocity 100, where the components are
those after this frame's accumulation and clamping. -/
theorem headCommand_emission_values (s : Misty2State) (g : Gamepad)
    (h : s.framesToMoveHead + 1 = 180) :
    (update s g).2.1 =
      some { pitch := jsTrunc ((update s g).1.headRotation1),
             yaw := -(jsTrunc ((update s g).1.headRotation0)),
             velocity := 100 } := by
  rw [update_headCmd, if_pos h]

/-- Concrete head emission: from counter 179 with full stick deflection,
the head command is `(pitch, yaw, velocity) = (2, -2, 100)`. -/
theorem headCommand_emission_values_witness :
    sampleHead179.framesToMoveHead + 1 = 180 ∧
    (update sampleHead179 fullGamepad).2.1 =
      some { pitch := 2, yaw := -2, velocity := 100 } := by
  constructor
  · rfl
  · rw [headCommand_emission_values sampleHead179 fullGamepad rfl]
    rw [update_fst_headRotation0, update_fst_headRotation1]
    norm_num [sampleHead179, sampleState, mkMisty2Robot, fullGamepad, applyDeadzone,
      mapAnalogValues_eq_floor, clamp, jsTrunc, min_def, max_def]

/-- C6: when the body channel fires (its counter reaches 180), the
emitted drive command carries the scaled, deadzone-filtered left-stick Y
axis as linear velocity and the scaled, deadzone-filtered left-stick X
axis as angular velocity (the first two axes of the raw sample). -/
theorem driveCommand_emission_values (s : Misty2State) (g : Gamepad)
    (h : s.framesToMoveBody + 1 = 180) :
    (update s g).2.2 =
      some { linearVelocity :=
               (mapAnalogValues (applyDeadzone g.axes0 s.deadzone)
                 (applyDeadzone g.axes1 s.deadzone)).2,
             angularVelocity :=
               (mapAnalogValues (applyDeadzone g.axes0 s.deadzone)
                 (applyDeadzone g.axes1 s.deadzone)).1 } := by
  rw [update_driveCmd, if_pos h]

/-- Concrete body emission: from counter 179 with full stick deflection,
the drive command is `(linearVelocity, angularVelocity) = (100, 100)`. -/
theorem driveCommand_emission_values_witness :
    sampleBody179.framesToMoveBody + 1 = 180 ∧
    (update sampleBody179 fullGamepad).2.2 =
      some { linearVelocity := 100, angularVelocity := 100 } := by
  constructor
  · rfl
  · rw [driveCommand_emission_values sampleBody179 fullGamepad rfl]
    norm_num [sampleBody179, sampleState, mkMisty2Robot, fullGamepad, applyDeadzone,
      mapAnalogValues_eq_floor]

/-- C7: `getVideoStream` always issues the session-start request with
port 5678, rotation 90 and the configured width, height and quality; it
returns the freshly opened socket (stored in `ws`) exactly when the
transport answers 200, and on any other status it fails with the stream
start error and leaves the state (including the stored socket handle)
unchanged. -/
theorem getVideoStream_spec (s : Misty2State) (resp : Response) :
    (getVideoStream s resp).1 =
      ApiRequest.videoStreamingStart 5678 90 s.imageWidth s.imageHeight s.videoQuality ∧
    (resp.status = 200 →
      (getVideoStream s resp).2.2 =
        Except.ok ({ url := wsUrl s.ipAddress 5678 }, wsOnClose) ∧
      (getVideoStream s resp).2.1.ws = some { url := wsUrl s.ipAddress 5678 }) ∧
    (resp.status ≠ 200 →
      (getVideoStream s resp).2.2 = Except.error StreamStartError.failedToStart ∧
      (getVideoStream s resp).2.1 = s) := by
  refine ⟨?_, ?_, ?_⟩
  · simp only [getVideoStream]
    split <;> rfl
  · intro h
    simp only [getVideoStream]
    rw [if_pos h]
    exact ⟨rfl, rfl⟩
  · intro h
    simp only [getVideoStream]
    rw [if_neg h]
    exact ⟨rfl, rfl⟩

/-- Concrete session starts: a 200 response yields the socket, a 404
response yields the error and an unchanged state. -/
theorem getVideoStream_spec_witness :
    ((200 : ℤ) = 200) ∧ ((404 : ℤ) ≠ 200) ∧
    (getVideoStream sampleState { status := 200 }).2.2 =
      Except.ok ({ url := wsUrl sampleState.ipAddress 5678 }, wsOnClose) ∧
    (getVideoStream sampleState { status := 404 }).2.2 =
      Except.error StreamStartError.failedToStart ∧
    (getVideoStream sampleState { status := 404 }).2.1 = sampleState := by
  refine ⟨rfl, by decide, ?_, ?_, ?_⟩
  · exact ((getVideoStream_spec sampleState { status := 200 }).2.1 rfl).1
  · exact ((getVideoStream_spec sampleState { status := 404 }).2.2 (by decide)).1
  · exact ((getVideoStream_spec sampleState { status := 404 }).2.2 (by decide)).2

/-- C8: the close handler installed on any successfully started stream
socket issues exactly one stop notification per close event, whatever
the cause of the close. -/
theorem streamClose_single_stop (s : Misty2State) (resp : Response) (sock : Socket)
    (handler : CloseEvent → List ApiRequest)
    (h : (getVideoStream s resp).2.2 = Except.ok (sock, handler)) (evt : CloseEvent) :
    handler evt = [ApiRequest.videoStreamingStop] ∧ (handler evt).length = 1 := by
  simp only [getVideoStream] at h
  by_cases h200 : resp.status = 200
  · rw [if_pos h200] at h
    simp only [Except.ok.injEq, Prod.mk.injEq] at h
    obtain ⟨-, rfl⟩ := h
    exact ⟨rfl, rfl⟩
  · rw [if_neg h200] at h
    simp at h

/-- Concrete close: after a successful start, a remote close produces
exactly one stop request. -/
theorem streamClose_single_stop_witness :
    (getVideoStream sampleState { status := 200 }).2.2 =
      Except.ok ({ url := wsUrl sampleState.ipAddress 5678 }, wsOnClose) ∧
    wsOnClose { cause := CloseCause.remoteClose } = [ApiRequest.videoStreamingStop] ∧
    (wsOnClose { cause := CloseCause.remoteClose }).length = 1 := by
  refine ⟨rfl, ?_, ?_⟩
  · exact (streamClose_single_stop sampleState { status := 200 } _ wsOnClose rfl
      { cause := CloseCause.remoteClose }).1
  · exact (streamClose_single_stop sampleState { status := 200 } _ wsOnClose rfl
      { cause := CloseCause.remoteClose }).2

/-- C9: `restart` issues exactly one reboot request with `Core = false`
and `SensoryServices = true`, independent of the robot state and of the
transport response (which it never inspects). -/
theorem restart_single_reboot (s : Misty2State) (resp : Response) :
    restart s resp = [ApiRequest.reboot false true] ∧ (restart s resp).length = 1 :=
  ⟨rfl, rfl⟩

/-- C10: when all four raw axes are strictly inside the deadzone and the
head rotation components are in their invariant range, an `update` call
leaves both head rotation components exactly unchanged, and any drive
command emitted on such a frame is `(0, 0)`. -/
theorem deadzone_noop_frame (s : Misty2State) (g : Gamepad)
    (hl0 : -100 ≤ s.headRotation0) (hu0 : s.headRotation0 ≤ 100)
    (hl1 : -100 ≤ s.headRotation1) (hu1 : s.headRotation1 ≤ 100)
    (ha0 : -s.deadzone < g.axes0 ∧ g.axes0 < s.deadzone)
    (ha1 : -s.deadzone < g.axes1 ∧ g.axes1 < s.deadzone)
    (ha2 : -s.deadzone < g.axes2 ∧ g.axes2 < s.deadzone)
    (ha3 : -s.deadzone < g.axes3 ∧ g.axes3 < s.deadzone) :
    (update s g).1.headRotation0 = s.headRotation0 ∧
    (update s g).1.headRotation1 = s.headRotation1 ∧
    ∀ dc : DriveCommand, (update s g).2.2 = some dc →
      dc.linearVelocity = 0 ∧ dc.angularVelocity = 0 := by
  have d0 : applyDeadzone g.axes0 s.deadzone = 0 := by
    unfold applyDeadzone
    exact if_pos ⟨ha0.2, ha0.1⟩
  have d1 : applyDeadzone g.axes1 s.deadzone = 0 := by
    unfold applyDeadzone
    exact if_pos ⟨ha1.2, ha1.1⟩
  have d2 : applyDeadzone g.axes2 s.deadzone = 0 := by
    unfold applyDeadzone
    exact if_pos ⟨ha2.2, ha2.1⟩
  have d3 : applyDeadzone g.axes3 s.deadzone = 0 := by
    unfold applyDeadzone
    exact if_pos ⟨ha3.2, ha3.1⟩
  have hmap : mapAnalogValues 0 0 = ((0 : ℤ), (0 : ℤ)) := by
    rw [mapAnalogValues_eq_floor]
    norm_num
  refine ⟨?_, ?_, ?_⟩
  · rw [update_fst_headRotation0, d2, d3, hmap]
    norm_num
    exact clamp_eq_self hl0 hu0
  · rw [update_fst_headRotation1, d2, d3, hmap]
    norm_num
    exact clamp_eq_self hl1 hu1
  · intro dc hdc
    rw [update_driveCmd, d0, d1, hmap] at hdc
    by_cases hb : s.framesToMoveBody + 1 = 180
    · rw [if_pos hb] at hdc
      have h2 := Option.some.inj hdc
      rw [← h2]
      exact ⟨rfl, rfl⟩
    · rw [if_neg hb] at hdc
      simp at hdc

/-- Concrete idle frame: all axes at 1/20 (inside the default 0.1
deadzone) leave the fresh head rotation unchanged. -/
theorem deadzone_noop_frame_witness :
    (-sampleState.deadzone < idleGamepad.axes0 ∧
      idleGamepad.axes0 < sampleState.deadzone) ∧
    (-100 ≤ sampleState.headRotation0 ∧ sampleState.headRotation0 ≤ 100) ∧
    (update sampleState idleGamepad).1.headRotation0 = sampleState.headRotation0 ∧
    (update sampleState idleGamepad).1.headRotation1 = sampleState.headRotation1 := by
  have hax : -sampleState.deadzone < idleGamepad.axes0 ∧
      idleGamepad.axes0 < sampleState.deadzone := by
    norm_num [sampleState, mkMisty2Robot, idleGamepad]
  have h := deadzone_noop_frame sampleState idleGamepad
    (by norm_num [sampleState, mkMisty2Robot]) (by norm_num [sampleState, mkMisty2Robot])
    (by norm_num [sampleState, mkMisty2Robot]) (by norm_num [sampleState, mkMisty2Robot])
    (by norm_num [sampleState, mkMisty2Robot, idleGamepad])
    (by norm_num [sampleState, mkMisty2Robot, idleGamepad])
    (by norm_num [sampleState, mkMisty2Robot, idleGamepad])
    (by norm_num [sampleState, mkMisty2Robot, idleGamepad])
  exact ⟨hax, ⟨by norm_num [sampleState, mkMisty2Robot],
    by norm_num [sampleState, mkMisty2Robot]⟩, h.1, h.2.1⟩

end Misty2
